import Mathlib

/-!
Verification of the attribute-logic evaluation engine of the scheduling
platform (packages/lib/raqb/findTeamMembersMatchingAttributeLogic.ts and the
client-side evaluateRaqbLogic module).

Shallow embedding notes:
* The external data-fetch collaborator (getAttributesAssignmentData) is out of
  scope per the spec; its successful result is supplied as an explicit input.
* The wall-clock (performance.now()) is modelled as explicit readings of type
  Option Nat; a `none` reading models a failing clock call.  The source has no
  try/catch around the clock, so a failing reading propagates as an error.
* The process-wide mutable warnOnce flag of the client module is modelled as
  explicit state (a Bool threaded through, plus the emitted console lines).
* TypeScript `null`/`undefined` are modelled as `Option.none`; JS truthiness
  of an object-or-null value is `Option.isSome`.
-/

/-- Combinator of a query-builder group node (AND / OR). -/
inductive Combinator where
  | and
  | or
deriving DecidableEq

/-- Operand of a leaf rule: either a literal value set, or a dynamic
reference to a booking-form field, pending resolution. -/
inductive Operand where
  | literal (values : List String)
  | dynamicRef (source : String) (field : String)
deriving DecidableEq

mutual
/-- Attributes query tree (the RAQB JsonTree shape: nested groups with a
combinator and a list of child rules/groups, leaves carrying an attribute id,
an operator name and an operand). -/
inductive QueryNode where
  | rule (attributeId : String) (operatorName : String) (operand : Operand)
  | group (combinator : Combinator) (children : QueryNodeList)

/-- List of child nodes of a group (a separate mutual inductive so that
structural recursion over the tree is available). -/
inductive QueryNodeList where
  | nil
  | cons (head : QueryNode) (tail : QueryNodeList)
end

/-- The serialized attributes query value stored on a routing form. -/
abbrev AttributesQueryValue := QueryNode

/-- Dynamic field value operands: values of booking-form fields, available at
evaluation time (field name to values).  The orchestrator in the source
accepts this and never reads it. -/
abbrev DynamicFieldValueOperands := List (String × List String)

/-- Result enum of the client-side RAQB evaluation module. -/
inductive RaqbLogicResult where
  | MATCH
  | NO_MATCH
  | LOGIC_NOT_FOUND_SO_MATCHED
deriving DecidableEq

/-- Log-level config of the client-side evaluation module (0, 1 or 2). -/
structure EvaluateConfig where
  logLevel : Fin 3
deriving DecidableEq

/-- Input of evaluateRaqbLogic: the query tree, the query-builder config, the
data record the logic is evaluated against (one member's attribute values),
and the strictness flag for empty logic. -/
structure EvaluateInput where
  queryValue : QueryNode
  queryBuilderConfig : List (String × String)
  data : List (String × String)
  beStrictWithEmptyLogic : Bool

/-- The console message emitted (once per process) by the disabled evaluator. -/
def raqbDisabledConsoleWarning : String :=
  "evaluateRaqbLogic: React Awesome Query Builder evaluation is disabled. Falling back to default match behaviour."

/-- warnOnce helper of the client module: emits the message only when the
process-wide flag is still unset.  Returns the new flag and the emitted
console lines. -/
def warnOnce (warned : Bool) (message : String) : Bool × List String :=
  if warned then (warned, []) else (true, [message])

/-- evaluateRaqbLogic from the client module: ignores its input and config
entirely and returns LOGIC_NOT_FOUND_SO_MATCHED (the evaluation engine is
disabled in this deployment). -/
def evaluateRaqbLogic (_input : EvaluateInput) (_config : EvaluateConfig) : RaqbLogicResult :=
  RaqbLogicResult.LOGIC_NOT_FOUND_SO_MATCHED

/-- evaluateRaqbLogic with the process-wide warnOnce flag and the console
made explicit: calls warnOnce with the fixed message, then returns the same
constant result.  Components: (result, new flag, console lines). -/
def evaluateRaqbLogicStateful (input : EvaluateInput) (config : EvaluateConfig)
    (warned : Bool) : RaqbLogicResult × Bool × List String :=
  let w := warnOnce warned raqbDisabledConsoleWarning
  (evaluateRaqbLogic input config, w.1, w.2)

/-- A RaqbLogicResult counts as a match (MATCH and LOGIC_NOT_FOUND_SO_MATCHED
both route the member in). -/
def isMatchResult : RaqbLogicResult → Bool
  | RaqbLogicResult.MATCH => true
  | RaqbLogicResult.NO_MATCH => false
  | RaqbLogicResult.LOGIC_NOT_FOUND_SO_MATCHED => true

/-- A member snapshot for evaluation: the member id and the data record fed
to the evaluator (attribute id to rendered value). -/
abbrev MemberSnapshot := Nat × List (String × String)

/-- The evaluator input built for one member and one query tree. -/
def memberEvaluateInput (queryValue : QueryNode) (m : MemberSnapshot) : EvaluateInput :=
  ⟨queryValue, [], m.2, false⟩

/-- Ids of the members a query tree matches, per the (pure) evaluator. -/
def matchedMemberIds (queryValue : QueryNode) (config : EvaluateConfig)
    (members : List MemberSnapshot) : List Nat :=
  (members.filter (fun m => isMatchResult (evaluateRaqbLogic (memberEvaluateInput queryValue m) config))).map
    (fun m => m.1)

/-- One evaluation pass over a member list with the warnOnce flag threaded
through in member order.  Returns the matched ids and the final flag. -/
def runEvaluationPass (queryValue : QueryNode) (config : EvaluateConfig) :
    List MemberSnapshot → Bool → List Nat × Bool
  | [], warned => ([], warned)
  | m :: rest, warned =>
    let step := evaluateRaqbLogicStateful (memberEvaluateInput queryValue m) config warned
    let tail := runEvaluationPass queryValue config rest step.2.1
    (if isMatchResult step.1 then m.1 :: tail.1 else tail.1, tail.2)

/-- An organization attribute definition, as returned by the (out-of-scope)
attribute fetch collaborator.  Opaque payload to the core: it is only passed
through into troubleshooter data. -/
structure Attribute where
  id : String
  name : String
deriving DecidableEq

/-- A team member together with the attribute option values assigned (one
entry per attribute id).  Opaque payload to the core. -/
structure TeamMemberWithAttributes where
  userId : Nat
  attributes : List (String × List String)
deriving DecidableEq

/-- Successful result of the external getAttributesAssignmentData fetch. -/
structure AttributesAssignmentData where
  attributesOfTheOrg : List Attribute
  attributesAssignedToTeamMembersWithOptions : List TeamMemberWithAttributes
deriving DecidableEq

/-- TroubleshooterCase enum of the orchestrator module. -/
inductive TroubleshooterCase where
  | IS_A_ROUTER
  | NO_LOGIC_FOUND
  | MATCH_RESULTS_READY
  | MATCH_RESULTS_READY_WITH_FALLBACK
  | MATCHES_ALL_MEMBERS_BECAUSE_OF_EMPTY_QUERY_VALUE
  | MATCHES_ALL_MEMBERS
deriving DecidableEq

/-- Payload attached to a troubleshooter record by runAttributeLogic. -/
structure TroubleshooterPayload where
  reason : String
  attributesOfTheOrg : List Attribute
  teamMembersWithAttributeOptionValuePerAttribute : List TeamMemberWithAttributes
deriving DecidableEq

/-- A troubleshooter record: the case and its payload. -/
structure TroubleshooterRecord where
  type : TroubleshooterCase
  data : TroubleshooterPayload
deriving DecidableEq

/-- buildTroubleshooterData from the orchestrator module: wraps a case and a
payload into the record put under the troubleshooter key of the result. -/
def buildTroubleshooterData (type : TroubleshooterCase) (data : TroubleshooterPayload) :
    TroubleshooterRecord :=
  ⟨type, data⟩

/-- attributesData component of RunAttributeLogicData. -/
structure AttributesData where
  attributesOfTheOrg : List Attribute
  teamMembersWithAttributeOptionValuePerAttribute : List TeamMemberWithAttributes
deriving DecidableEq

/-- Input of runAttributeLogic. -/
structure RunAttributeLogicData where
  attributesQueryValue : Option AttributesQueryValue
  attributesData : AttributesData
  dynamicFieldValueOperands : Option DynamicFieldValueOperands

/-- Options of runAttributeLogic. -/
structure RunAttributeLogicOptions where
  enableTroubleshooter : Bool
deriving DecidableEq

/-- Result record of runAttributeLogic. -/
structure RunAttributeLogicResult where
  logicBuildingWarnings : List String
  teamMembersMatchingAttributeLogic : Option (List TeamMemberWithAttributes)
  timeTaken : Option (List (String × Option Int))
  troubleshooter : Option TroubleshooterRecord
deriving DecidableEq

/-- The single warning string the orchestrator can produce. -/
def disabledDeploymentWarning : String :=
  "Attribute routing logic evaluation is disabled in this deployment."

/-- The reason string attached to the troubleshooter payload. -/
def disabledOnServerReason : String :=
  "Attribute routing logic disabled on server."

/-- runAttributeLogic from the orchestrator module: the attribute-logic
engine is disabled, so it never evaluates the query value.  It warns when a
query value is present (Boolean truthiness of the value), returns a null
member list and null timings, and, when the troubleshooter is enabled, always
records the NO_LOGIC_FOUND case with the fetched attributes and members as
payload. -/
def runAttributeLogic (data : RunAttributeLogicData) (options : RunAttributeLogicOptions) :
    RunAttributeLogicResult :=
  let shouldWarnAboutMissingLogic := data.attributesQueryValue.isSome
  ⟨if shouldWarnAboutMissingLogic then [disabledDeploymentWarning] else [],
   none,
   none,
   if options.enableTroubleshooter then
     some (buildTroubleshooterData TroubleshooterCase.NO_LOGIC_FOUND
       ⟨disabledOnServerReason,
        data.attributesData.attributesOfTheOrg,
        data.attributesData.teamMembersWithAttributeOptionValuePerAttribute⟩)
   else none⟩

/-- asyncPerf from the orchestrator module: reads the clock, runs the wrapped
computation, reads the clock again, and pairs the result with the elapsed
time.  Clock readings are explicit (`none` models a failing performance.now()
call); the source has no error handling around the clock, so a failing
reading propagates. -/
def asyncPerf {A : Type} (r1 r2 : Option Nat) (result : A) :
    Except String (A × Option Int) :=
  match r1 with
  | none => Except.error "performance.now failed"
  | some tStart =>
    match r2 with
    | none => Except.error "performance.now failed"
    | some tEnd => Except.ok (result, some ((tEnd : Int) - (tStart : Int)))

/-- Result of getAttributesForLogic. -/
structure AttributesForLogic where
  attributesOfTheOrg : List Attribute
  teamMembersWithAttributeOptionValuePerAttribute : List TeamMemberWithAttributes
  timeTaken : Option Int
deriving DecidableEq

/-- getAttributesForLogic from the orchestrator module: times the external
attribute fetch with asyncPerf and repackages its result.  The successful
fetch result is supplied as an input (the fetch collaborator is out of
scope). -/
def getAttributesForLogic (fetched : AttributesAssignmentData) (r1 r2 : Option Nat) :
    Except String AttributesForLogic := do
  let pr ← asyncPerf r1 r2 fetched
  pure ⟨pr.1.attributesOfTheOrg, pr.1.attributesAssignedToTeamMembersWithOptions, pr.2⟩

/-- Input record of findTeamMembersMatchingAttributeLogic. -/
structure FindTeamMembersInput where
  teamId : Int
  orgId : Int
  attributesQueryValue : Option AttributesQueryValue
  fallbackAttributesQueryValue : Option (Option AttributesQueryValue)
  dynamicFieldValueOperands : Option DynamicFieldValueOperands
  isPreview : Option Bool

/-- Options record of findTeamMembersMatchingAttributeLogic (all optional;
enableTroubleshooter defaults to false). -/
structure FindTeamMembersOptions where
  enablePerf : Option Bool
  concurrency : Option Nat
  enableTroubleshooter : Option Bool
deriving DecidableEq

/-- The timeTaken map of the orchestrator result: the fetch phase duration
plus whatever phase map runAttributeLogic returned (spread of
`timeTaken ?? \x7b\x7d`). -/
structure TimeTakenMap where
  ttGetAttributesForLogic : Option Int
  phases : List (String × Option Int)
deriving DecidableEq

/-- Result record of findTeamMembersMatchingAttributeLogic.  The optional
troubleshooter key is modelled as an Option field (`none` = key absent). -/
structure FindTeamMembersResult where
  teamMembersMatchingAttributeLogic : Option (List TeamMemberWithAttributes)
  checkedFallback : Bool
  mainAttributeLogicBuildingWarnings : List String
  fallbackAttributeLogicBuildingWarnings : List String
  timeTaken : TimeTakenMap
  troubleshooter : Option TroubleshooterRecord
deriving DecidableEq

/-- findTeamMembersMatchingAttributeLogic from the orchestrator module:
fetches attribute data (timed), runs runAttributeLogic on the primary query
value, and assembles the result.  checkedFallback is the literal false and
the fallback query value is never consulted. -/
def findTeamMembersMatchingAttributeLogic (fetched : AttributesAssignmentData)
    (r1 r2 : Option Nat) (data : FindTeamMembersInput)
    (options : FindTeamMembersOptions) : Except String FindTeamMembersResult := do
  let enableTroubleshooter := options.enableTroubleshooter.getD false
  let attrs ← getAttributesForLogic fetched r1 r2
  let runData : RunAttributeLogicData :=
    ⟨data.attributesQueryValue,
     ⟨attrs.attributesOfTheOrg, attrs.teamMembersWithAttributeOptionValuePerAttribute⟩,
     data.dynamicFieldValueOperands⟩
  let res := runAttributeLogic runData ⟨enableTroubleshooter⟩
  pure ⟨res.teamMembersMatchingAttributeLogic,
        false,
        res.logicBuildingWarnings,
        [],
        ⟨attrs.timeTaken, (res.timeTaken.getD [])⟩,
        res.troubleshooter⟩

/-- The meaning-carrying fields of an orchestrator result: the matched member
list, the fallback flag and both warning lists (everything except the timing
map and the diagnostic record). -/
def meaningFields (r : FindTeamMembersResult) :
    Option (List TeamMemberWithAttributes) × Bool × List String × List String :=
  (r.teamMembersMatchingAttributeLogic, r.checkedFallback,
   r.mainAttributeLogicBuildingWarnings, r.fallbackAttributeLogicBuildingWarnings)

mutual
/-- Whether a query tree still contains a DynamicRef operand. -/
def hasDynamicRef : QueryNode → Bool
  | QueryNode.rule _ _ (Operand.dynamicRef _ _) => true
  | QueryNode.rule _ _ (Operand.literal _) => false
  | QueryNode.group _ children => hasDynamicRefList children

/-- Whether any node of a child list still contains a DynamicRef operand. -/
def hasDynamicRefList : QueryNodeList → Bool
  | QueryNodeList.nil => false
  | QueryNodeList.cons t ts => hasDynamicRef t || hasDynamicRefList ts
end

/-- Bindings available to the operand resolver: source name to (field name to
values). -/
abbrev DynamicOperandBindings := List (String × List (String × List String))

mutual
/-- Modelled from the spec: the repository contains no OperandResolver
implementation (the evaluation engine is stubbed out and
dynamicFieldValueOperands is accepted but never read), so this resolver
follows spec section 4.1: a pure single-pass tree transform substituting each
DynamicRef operand with the bound value looked up under operands[source][field],
leaving literal operands untouched; a DynamicRef with no bound value is left
in place to be treated as indeterminate at evaluation time. -/
def resolveOperands (operands : DynamicOperandBindings) : QueryNode → QueryNode
  | QueryNode.rule a o (Operand.literal vs) => QueryNode.rule a o (Operand.literal vs)
  | QueryNode.rule a o (Operand.dynamicRef s f) =>
    match (operands.lookup s).bind (fun m => m.lookup f) with
    | some vs => QueryNode.rule a o (Operand.literal vs)
    | none => QueryNode.rule a o (Operand.dynamicRef s f)
  | QueryNode.group c children => QueryNode.group c (resolveOperandsList operands children)

/-- Modelled from the spec: the resolver mapped over a child list. -/
def resolveOperandsList (operands : DynamicOperandBindings) : QueryNodeList → QueryNodeList
  | QueryNodeList.nil => QueryNodeList.nil
  | QueryNodeList.cons t ts =>
    QueryNodeList.cons (resolveOperands operands t) (resolveOperandsList operands ts)
end

/-- A sample organization attribute (Department). -/
def sampleAttribute : Attribute := ⟨"attr-dept", "Department"⟩

/-- A sample member with the Sales department option. -/
def sampleMemberA : TeamMemberWithAttributes := ⟨101, [("attr-dept", ["Sales"])]⟩

/-- A sample member with the Support department option. -/
def sampleMemberB : TeamMemberWithAttributes := ⟨102, [("attr-dept", ["Support"])]⟩

/-- A sample successful fetch result with two members. -/
def sampleFetch : AttributesAssignmentData := ⟨[sampleAttribute], [sampleMemberA, sampleMemberB]⟩

/-- A sample successful fetch result with no members. -/
def emptyFetch : AttributesAssignmentData := ⟨[sampleAttribute], []⟩

/-- A sample rule: Department equals Sales. -/
def sampleRuleSales : QueryNode :=
  QueryNode.rule "attr-dept" "select_equals" (Operand.literal ["Sales"])

/-- A sample rule: Department none-in Sales. -/
def sampleRuleNoneInSales : QueryNode :=
  QueryNode.rule "attr-dept" "select_not_any_in" (Operand.literal ["Sales"])

/-- A sample rule whose operand is a dynamic reference to a booking-form field. -/
def sampleDynRule : QueryNode :=
  QueryNode.rule "attr-dept" "select_equals" (Operand.dynamicRef "form" "dept-field")

/-- Sample member snapshots matching sampleFetch, as fed to the evaluator. -/
def sampleMembers : List MemberSnapshot :=
  [(101, [("attr-dept", "Sales")]), (102, [("attr-dept", "Support")])]

/-- A sample orchestrator input with only a primary query value. -/
def sampleInputPrimaryOnly : FindTeamMembersInput :=
  ⟨1, 1, some sampleRuleSales, none, none, none⟩

/-- The orchestrator result produced for a present query value, readings 0 and 5
and a disabled troubleshooter. -/
def disabledRunResult : FindTeamMembersResult :=
  ⟨none, false, [disabledDeploymentWarning], [], ⟨some 5, []⟩, none⟩

/-- A concrete literal query tree (no DynamicRef). -/
def sampleLiteralTree : QueryNode :=
  QueryNode.group Combinator.and
    (QueryNodeList.cons (QueryNode.rule "attr-dept" "select_equals" (Operand.literal ["Sales"]))
      QueryNodeList.nil)

/-- Helper: the ids component of an evaluation pass does not depend on the
warnOnce flag and equals the pure matched-id computation. -/
theorem runEvaluationPass_fst (queryValue : QueryNode) (config : EvaluateConfig) :
    ∀ (members : List MemberSnapshot) (warned : Bool),
      (runEvaluationPass queryValue config members warned).1 =
        matchedMemberIds queryValue config members := by
  intro members
  induction members with
  | nil => intro warned; rfl
  | cons m rest ih =>
    intro warned
    show m.1 :: (runEvaluationPass queryValue config rest
        (warnOnce warned raqbDisabledConsoleWarning).1).1 =
      m.1 :: matchedMemberIds queryValue config rest
    exact congrArg (fun l => m.1 :: l) (ih _)

/-- C5: evaluateRaqbLogic returns RaqbLogicResult.LOGIC_NOT_FOUND_SO_MATCHED for
every input and every config: its result is a constant, independent of the query
tree, the member data, the query-builder config and the strictness flag; the
variant with the explicit warnOnce state returns the same constant result for
either state of the flag. -/
theorem evaluateRaqbLogic_constant_result (input : EvaluateInput)
    (config : EvaluateConfig) (warned : Bool) :
    evaluateRaqbLogic input config = RaqbLogicResult.LOGIC_NOT_FOUND_SO_MATCHED ∧
    (evaluateRaqbLogicStateful input config warned).1 =
      RaqbLogicResult.LOGIC_NOT_FOUND_SO_MATCHED :=
  ⟨rfl, rfl⟩

/-- C2 counterexample: an OR group with zero children does not evaluate to false:
the evaluator returns LOGIC_NOT_FOUND_SO_MATCHED for it, which counts as a match
and is not NO_MATCH. -/
theorem empty_or_group_matches :
    evaluateRaqbLogic
        ⟨QueryNode.group Combinator.or QueryNodeList.nil, [], [("attr-dept", "Sales")], false⟩ ⟨1⟩ =
      RaqbLogicResult.LOGIC_NOT_FOUND_SO_MATCHED ∧
    isMatchResult (evaluateRaqbLogic
        ⟨QueryNode.group Combinator.or QueryNodeList.nil, [], [("attr-dept", "Sales")], false⟩ ⟨1⟩) = true ∧
    RaqbLogicResult.LOGIC_NOT_FOUND_SO_MATCHED ≠ RaqbLogicResult.NO_MATCH :=
  ⟨rfl, rfl, by decide⟩

/-- C2 (amended): for every member data record, query-builder config, strictness
flag and config, both the empty AND group and the empty OR group evaluate to
LOGIC_NOT_FOUND_SO_MATCHED — a matched result: the empty AND group is matched (as
the claim states, vacuously), but the empty OR group is matched as well, rather
than evaluating to false. -/
theorem empty_group_evaluation (qbc d : List (String × String)) (strict : Bool)
    (config : EvaluateConfig) :
    evaluateRaqbLogic ⟨QueryNode.group Combinator.and QueryNodeList.nil, qbc, d, strict⟩ config =
      RaqbLogicResult.LOGIC_NOT_FOUND_SO_MATCHED ∧
    evaluateRaqbLogic ⟨QueryNode.group Combinator.or QueryNodeList.nil, qbc, d, strict⟩ config =
      RaqbLogicResult.LOGIC_NOT_FOUND_SO_MATCHED ∧
    isMatchResult (evaluateRaqbLogic
        ⟨QueryNode.group Combinator.and QueryNodeList.nil, qbc, d, strict⟩ config) = true ∧
    isMatchResult (evaluateRaqbLogic
        ⟨QueryNode.group Combinator.or QueryNodeList.nil, qbc, d, strict⟩ config) = true :=
  ⟨rfl, rfl, rfl, rfl⟩

/-- C1 (amended): when attributesQueryValue is null the call returns
teamMembersMatchingAttributeLogic = null (no member list — in particular not the
fetched member set), checkedFallback = false, an empty warning list (so no
"no attribute logic configured" warning), and, when the troubleshooter is
enabled, a NO_LOGIC_FOUND record carrying the fetched attributes and members. -/
theorem find_without_query_value (fetched : AttributesAssignmentData) (t1 t2 : Nat)
    (tid oid : Int) (fb : Option (Option AttributesQueryValue))
    (ops : Option DynamicFieldValueOperands) (prev : Option Bool)
    (options : FindTeamMembersOptions) :
    findTeamMembersMatchingAttributeLogic fetched (some t1) (some t2)
        ⟨tid, oid, none, fb, ops, prev⟩ options =
      Except.ok
        ⟨none, false, [], [],
         ⟨some ((t2 : Int) - (t1 : Int)), []⟩,
         if options.enableTroubleshooter.getD false then
           some ⟨TroubleshooterCase.NO_LOGIC_FOUND,
                 ⟨disabledOnServerReason, fetched.attributesOfTheOrg,
                  fetched.attributesAssignedToTeamMembersWithOptions⟩⟩
         else none⟩ :=
  rfl

/-- C1 counterexample: with a null attributesQueryValue, a nonempty fetched member
set and the troubleshooter enabled, the matched member list of the result is null —
not the full member set — and the warning list is empty, so it does not contain a
"no attribute logic configured" warning. -/
theorem find_without_query_value_not_all_members :
    (findTeamMembersMatchingAttributeLogic sampleFetch (some 0) (some 5)
        ⟨1, 1, none, none, none, none⟩ ⟨none, none, some true⟩).map
      (fun r => (r.teamMembersMatchingAttributeLogic,
                 r.mainAttributeLogicBuildingWarnings,
                 r.checkedFallback,
                 r.troubleshooter.map (fun t => t.type))) =
      Except.ok (none, [], false, some TroubleshooterCase.NO_LOGIC_FOUND) ∧
    (none : Option (List TeamMemberWithAttributes)) ≠
      some sampleFetch.attributesAssignedToTeamMembersWithOptions ∧
    "no attribute logic configured" ∉ ([] : List String) :=
  ⟨rfl, by simp, by simp⟩

/-- C3 (amended): the orchestrator never consults the fallback query value: runs
with any two fallback values give identical results, and every run (with working
clock readings) has checkedFallback = false and a null matched member list — the
fallback is never evaluated and no fallback match is ever returned. -/
theorem fallback_never_consulted (fetched : AttributesAssignmentData)
    (r1 r2 : Option Nat) (tid oid : Int) (qv : Option AttributesQueryValue)
    (fb fb' : Option (Option AttributesQueryValue))
    (ops : Option DynamicFieldValueOperands) (prev : Option Bool)
    (options : FindTeamMembersOptions) (t1 t2 : Nat) :
    findTeamMembersMatchingAttributeLogic fetched r1 r2 ⟨tid, oid, qv, fb, ops, prev⟩ options =
      findTeamMembersMatchingAttributeLogic fetched r1 r2 ⟨tid, oid, qv, fb', ops, prev⟩ options ∧
    (findTeamMembersMatchingAttributeLogic fetched (some t1) (some t2)
        ⟨tid, oid, qv, fb, ops, prev⟩ options).map
      (fun r => (r.checkedFallback, r.teamMembersMatchingAttributeLogic)) =
      Except.ok (false, none) := by
  constructor
  · cases r1 <;> cases r2 <;> rfl
  · rfl

/-- C3 counterexample: a concrete run with a nonempty member set, where the
outcome reports no member matching the primary query (the matched list is null)
and the provided fallback tree is matched by the evaluator for every member
(M = both members, nonempty): the outcome is nevertheless not M with
checkedFallback = true — checkedFallback is false and no member list is returned. -/
theorem fallback_nonempty_not_returned :
    matchedMemberIds sampleRuleNoneInSales ⟨1⟩ sampleMembers = [101, 102] ∧
    ([101, 102] : List Nat) ≠ [] ∧
    (findTeamMembersMatchingAttributeLogic sampleFetch (some 0) (some 5)
        ⟨1, 1, some sampleRuleSales, some (some sampleRuleNoneInSales), none, none⟩
        ⟨none, none, none⟩).map
      (fun r => (r.checkedFallback, r.teamMembersMatchingAttributeLogic)) =
      Except.ok (false, none) ∧
    (false, (none : Option (List TeamMemberWithAttributes))) ≠
      (true, some [sampleMemberA, sampleMemberB]) :=
  ⟨rfl, by simp, rfl, by decide⟩

/-- C4 (amended): for every input — in particular whenever no tree matches any
member — the orchestrator returns teamMembersMatchingAttributeLogic = null: it
never defaults to the full fetched member set, but neither does it return an
explicit empty member list; no member list of any kind is produced. -/
theorem exhaustion_returns_null_member_list (fetched : AttributesAssignmentData)
    (t1 t2 : Nat) (data : FindTeamMembersInput) (options : FindTeamMembersOptions)
    (res : FindTeamMembersResult)
    (h : findTeamMembersMatchingAttributeLogic fetched (some t1) (some t2) data options =
      Except.ok res) :
    res.teamMembersMatchingAttributeLogic = none ∧
    ∀ l : List TeamMemberWithAttributes, res.teamMembersMatchingAttributeLogic ≠ some l := by
  have h2 : (findTeamMembersMatchingAttributeLogic fetched (some t1) (some t2) data options).map
      (fun r => r.teamMembersMatchingAttributeLogic) = Except.ok none := rfl
  rw [h] at h2
  simp only [Except.map, Except.ok.injEq] at h2
  exact ⟨h2, by simp [h2]⟩

/-- C4 witness: the theorem applied at a concrete run whose primary and fallback
trees match zero members (empty member set). -/
theorem exhaustion_returns_null_member_list_witness :
    disabledRunResult.teamMembersMatchingAttributeLogic = none ∧
    ∀ l : List TeamMemberWithAttributes,
      disabledRunResult.teamMembersMatchingAttributeLogic ≠ some l :=
  exhaustion_returns_null_member_list emptyFetch 0 5
    ⟨1, 1, some sampleRuleSales, some (some sampleRuleNoneInSales), none, none⟩
    ⟨none, none, none⟩ disabledRunResult rfl

/-- C4 counterexample: with an empty fetched member set, both the primary and the
fallback tree genuinely match zero members, yet the returned matched member list
is null, not the empty set: the orchestrator returns no member list at all (it
does not default to all members, but neither does it return ∅ as the claim
states). -/
theorem exhaustion_returns_null_not_empty_set :
    matchedMemberIds sampleRuleSales ⟨1⟩ [] = [] ∧
    matchedMemberIds sampleRuleNoneInSales ⟨1⟩ [] = [] ∧
    (findTeamMembersMatchingAttributeLogic emptyFetch (some 0) (some 5)
        ⟨1, 1, some sampleRuleSales, some (some sampleRuleNoneInSales), none, none⟩
        ⟨none, none, none⟩).map
      (fun r => r.teamMembersMatchingAttributeLogic) = Except.ok none ∧
    (none : Option (List TeamMemberWithAttributes)) ≠ some [] :=
  ⟨rfl, rfl, rfl, by decide⟩

/-- C6: two runs that differ only in the enableTroubleshooter option have
identical meaning-carrying fields (matched member list, checkedFallback and both
warning lists), and a run whose enableTroubleshooter option resolves to false
yields a result without a troubleshooter record. -/
theorem troubleshooter_noninterference (fetched : AttributesAssignmentData)
    (r1 r2 : Option Nat) (data : FindTeamMembersInput)
    (ep : Option Bool) (cc : Option Nat) (b b' : Option Bool) :
    (findTeamMembersMatchingAttributeLogic fetched r1 r2 data ⟨ep, cc, b⟩).map meaningFields =
      (findTeamMembersMatchingAttributeLogic fetched r1 r2 data ⟨ep, cc, b'⟩).map meaningFields ∧
    (∀ res : FindTeamMembersResult, b.getD false = false →
      findTeamMembersMatchingAttributeLogic fetched r1 r2 data ⟨ep, cc, b⟩ = Except.ok res →
      res.troubleshooter = none) := by
  constructor
  · cases r1 <;> cases r2 <;> rfl
  · intro res hb h
    have hb2 : b = none ∨ b = some false := by
      cases b with
      | none => exact Or.inl rfl
      | some bv =>
        cases bv with
        | false => exact Or.inr rfl
        | true => simp at hb
    rcases hb2 with h2 | h2 <;> subst h2 <;>
      (cases r1 with
       | none => exact Except.noConfusion h
       | some t1 =>
         cases r2 with
         | none => exact Except.noConfusion h
         | some t2 =>
           injection h with h'
           subst h'
           rfl)

/-- C6 witness: the non-interference applied at a concrete run (readings 0 and 5,
primary query value present), for troubleshooter flags true versus false. -/
theorem troubleshooter_noninterference_witness :
    ((findTeamMembersMatchingAttributeLogic sampleFetch (some 0) (some 5)
        sampleInputPrimaryOnly ⟨none, none, some true⟩).map meaningFields =
      (findTeamMembersMatchingAttributeLogic sampleFetch (some 0) (some 5)
        sampleInputPrimaryOnly ⟨none, none, some false⟩).map meaningFields) ∧
    disabledRunResult.troubleshooter = none :=
  ⟨(troubleshooter_noninterference sampleFetch (some 0) (some 5)
      sampleInputPrimaryOnly none none (some true) (some false)).1,
   (troubleshooter_noninterference sampleFetch (some 0) (some 5)
      sampleInputPrimaryOnly none none (some false) (some true)).2
     disabledRunResult rfl rfl⟩

/-- C7 (amended): a rule whose operand is a DynamicRef with no bound value does
not evaluate to non-matching: the evaluator returns LOGIC_NOT_FOUND_SO_MATCHED
for it (a match); the orchestrator call on such a query completes with a valid
outcome whose warning list is exactly the deployment-disabled warning — no
missing-operand warning is ever appended. -/
theorem unbound_dynamic_ref_still_matches (a o s f : String)
    (qbc d : List (String × String)) (strict : Bool) (config : EvaluateConfig)
    (fetched : AttributesAssignmentData) (t1 t2 : Nat) (tid oid : Int)
    (fb : Option (Option AttributesQueryValue)) (prev : Option Bool)
    (options : FindTeamMembersOptions) :
    evaluateRaqbLogic ⟨QueryNode.rule a o (Operand.dynamicRef s f), qbc, d, strict⟩ config =
      RaqbLogicResult.LOGIC_NOT_FOUND_SO_MATCHED ∧
    isMatchResult (evaluateRaqbLogic
        ⟨QueryNode.rule a o (Operand.dynamicRef s f), qbc, d, strict⟩ config) = true ∧
    (findTeamMembersMatchingAttributeLogic fetched (some t1) (some t2)
        ⟨tid, oid, some (QueryNode.rule a o (Operand.dynamicRef s f)), fb, some [], prev⟩
        options).map
      (fun r => r.mainAttributeLogicBuildingWarnings) =
      Except.ok [disabledDeploymentWarning] :=
  ⟨rfl, rfl, rfl⟩

/-- C7 counterexample: a concrete rule referencing a booking-form field with no
bound value (empty dynamic operand bindings) evaluates to
LOGIC_NOT_FOUND_SO_MATCHED — not to NO_MATCH as the claim requires — and the
completed call's warning list is exactly the deployment-disabled warning,
containing no warning about the missing value. -/
theorem unbound_dynamic_ref_counterexample :
    evaluateRaqbLogic ⟨sampleDynRule, [], [], false⟩ ⟨1⟩ =
      RaqbLogicResult.LOGIC_NOT_FOUND_SO_MATCHED ∧
    evaluateRaqbLogic ⟨sampleDynRule, [], [], false⟩ ⟨1⟩ ≠ RaqbLogicResult.NO_MATCH ∧
    (findTeamMembersMatchingAttributeLogic sampleFetch (some 0) (some 5)
        ⟨1, 1, some sampleDynRule, none, some [], none⟩ ⟨none, none, none⟩).map
      (fun r => r.mainAttributeLogicBuildingWarnings) =
      Except.ok [disabledDeploymentWarning] :=
  ⟨rfl, by decide, rfl⟩

/-- C8: evaluation is deterministic and order-insensitive: the matched ids of an
evaluation pass do not depend on the warnOnce flag state, a second pass over the
same member snapshot (continuing from the first pass's final state) returns the
same ids, and passes over permuted member lists return permuted id lists. -/
theorem evaluation_deterministic_order_insensitive (queryValue : QueryNode)
    (config : EvaluateConfig) (members members' : List MemberSnapshot)
    (warned warned' : Bool) (h : members.Perm members') :
    (runEvaluationPass queryValue config members warned).1 =
      (runEvaluationPass queryValue config members warned').1 ∧
    (runEvaluationPass queryValue config members
        ((runEvaluationPass queryValue config members warned).2)).1 =
      (runEvaluationPass queryValue config members warned).1 ∧
    ((runEvaluationPass queryValue config members warned).1).Perm
      ((runEvaluationPass queryValue config members' warned').1) := by
  refine ⟨?_, ?_, ?_⟩ <;> simp only [runEvaluationPass_fst]
  exact (h.filter _).map _

/-- C8 witness: determinism applied at a concrete query, two concrete permuted
member lists and different initial flag states. -/
theorem evaluation_deterministic_order_insensitive_witness :
    (runEvaluationPass sampleRuleSales ⟨1⟩ sampleMembers true).1 =
      (runEvaluationPass sampleRuleSales ⟨1⟩ sampleMembers false).1 ∧
    (runEvaluationPass sampleRuleSales ⟨1⟩ sampleMembers
        ((runEvaluationPass sampleRuleSales ⟨1⟩ sampleMembers true).2)).1 =
      (runEvaluationPass sampleRuleSales ⟨1⟩ sampleMembers true).1 ∧
    ((runEvaluationPass sampleRuleSales ⟨1⟩ sampleMembers true).1).Perm
      ((runEvaluationPass sampleRuleSales ⟨1⟩ sampleMembers.reverse false).1) :=
  evaluation_deterministic_order_insensitive sampleRuleSales ⟨1⟩ sampleMembers
    sampleMembers.reverse true false (by decide)

/-- C9 (amended): timing preserves results: for successful clock readings,
asyncPerf returns exactly the wrapped computation's result paired with the
elapsed duration, and the meaning-carrying fields of the orchestrator outcome are
independent of the clock readings.  The implementation however never degrades a
timing failure to a null duration — a failing reading aborts the call (see the
counterexample). -/
theorem asyncPerf_preserves_result {A : Type} (t1 t2 : Nat) (v : A)
    (fetched : AttributesAssignmentData) (s1 s2 s1' s2' : Nat)
    (data : FindTeamMembersInput) (options : FindTeamMembersOptions) :
    asyncPerf (some t1) (some t2) v = Except.ok (v, some ((t2 : Int) - (t1 : Int))) ∧
    (findTeamMembersMatchingAttributeLogic fetched (some s1) (some s2) data options).map
        meaningFields =
      (findTeamMembersMatchingAttributeLogic fetched (some s1') (some s2') data options).map
        meaningFields :=
  ⟨rfl, rfl⟩

/-- C9 counterexample: when a clock reading fails, asyncPerf does not return the
wrapped result with a null duration — the call aborts with an error instead. -/
theorem asyncPerf_clock_failure_aborts :
    asyncPerf none (some 5) (42 : Nat) = Except.error "performance.now failed" ∧
    (asyncPerf none (some 5) (42 : Nat)).toOption = none ∧
    asyncPerf none (some 5) (42 : Nat) ≠ Except.ok ((42 : Nat), (none : Option Int)) :=
  ⟨rfl, rfl, fun h => Except.noConfusion h⟩

mutual
/-- Helper for C10: the resolver is the identity on DynamicRef-free trees. -/
theorem resolve_id_aux (ops : DynamicOperandBindings) :
    ∀ t : QueryNode, hasDynamicRef t = false → resolveOperands ops t = t
  | QueryNode.rule _ _ (Operand.literal _), _ => rfl
  | QueryNode.rule a o (Operand.dynamicRef s f), h => by
    simp [hasDynamicRef] at h
  | QueryNode.group c children, h => by
    have hc : hasDynamicRefList children = false := h
    rw [resolveOperands, resolveList_id_aux ops children hc]

/-- Helper for C10: the resolver is the identity on DynamicRef-free child lists. -/
theorem resolveList_id_aux (ops : DynamicOperandBindings) :
    ∀ ts : QueryNodeList, hasDynamicRefList ts = false → resolveOperandsList ops ts = ts
  | QueryNodeList.nil, _ => rfl
  | QueryNodeList.cons t ts, h => by
    rw [hasDynamicRefList, Bool.or_eq_false_iff] at h
    rw [resolveOperandsList, resolve_id_aux ops t h.1, resolveList_id_aux ops ts h.2]
end

/-- C10: resolving an already-fully-literal query tree (one containing no
DynamicRef operand) returns the tree unchanged, for every set of dynamic operand
bindings. -/
theorem resolve_identity_on_literal_trees (ops : DynamicOperandBindings)
    (t : QueryNode) (h : hasDynamicRef t = false) : resolveOperands ops t = t :=
  resolve_id_aux ops t h

/-- C10 witness: the identity property applied at a concrete literal tree and
concrete nonempty bindings. -/
theorem resolve_identity_on_literal_trees_witness :
    hasDynamicRef sampleLiteralTree = false ∧
    resolveOperands [("form", [("dept-field", ["Sales"])])] sampleLiteralTree =
      sampleLiteralTree :=
  ⟨rfl, resolve_identity_on_literal_trees [("form", [("dept-field", ["Sales"])])]
    sampleLiteralTree rfl⟩
